import Mathlib

/-!
# diffy-go: the request replay and comparison engine of `main.go`

A shallow embedding of `showResult`, `handleRequest` and `doRequest`.
Everything the program reaches outside `main.go` (the `net/http`, `net/url`,
`io` and `jsondiff` libraries, and the scheduling of the two goroutines) is
gathered in a `World` record that the handlers take as an argument.
-/

namespace Diffy

/-! ## Formatting (`fmt`) -/

/-- Operand of a formatting call. -/
inductive Arg where
  | int (i : Int)
  | str (s : String)
  deriving DecidableEq, Repr

/-- Decimal text of a Go `int`, as the verb `%d` prints it. -/
def fmtD (i : Int) : List Char :=
  if i < 0 then '-' :: Nat.toDigits 10 i.natAbs else Nat.toDigits 10 i.natAbs

/-- One verb applied to one operand.  `main.go` only uses `%d` on an `int`
and `%s` on a `string`; any other pairing prints Go's bad-verb marker. -/
def fmtVerb (verb : Char) (a : Arg) : List Char :=
  match verb, a with
  | 'd', Arg.int i => fmtD i
  | 's', Arg.str s => s.toList
  | 'v', Arg.int i => fmtD i
  | 'v', Arg.str s => s.toList
  | c, Arg.int i => '%' :: '!' :: c :: "(int=".toList ++ fmtD i ++ [')']
  | c, Arg.str s => '%' :: '!' :: c :: "(string=".toList ++ s.toList ++ [')']

/-- The walk of `fmt.Sprintf` over the format text: plain characters are
copied, `%c` consumes the next operand. -/
def sprintfAux : List Char → List Arg → List Char
  | [], _ => []
  | '%' :: '%' :: rest, args => '%' :: sprintfAux rest args
  | '%' :: verb :: rest, a :: args => fmtVerb verb a ++ sprintfAux rest args
  | '%' :: verb :: rest, [] => '%' :: '!' :: verb :: "(MISSING)".toList ++ sprintfAux rest []
  | c :: rest, args => c :: sprintfAux rest args

/-- Model of `fmt.Sprintf`. -/
def sprintf (format : String) (args : List Arg) : String :=
  String.mk (sprintfAux format.toList args)

/-- Model of `fmt.Sprintln`, which `log.Println` formats its line with:
the operands separated by blanks, then a newline. -/
def sprintln (args : List String) : String :=
  " ".intercalate args ++ "\n"

/-! ## Data -/

/-- Go `[]byte`. -/
abbrev Bytes := List UInt8

/-- The conversion `string(b)`, byte for byte. -/
def bytesToString (b : Bytes) : String :=
  String.mk (b.map fun x => Char.ofNat x.toNat)

/-- The fields of `url.URL` that `main.go` reads. -/
structure URL where
  Scheme : String
  Host : String
  Path : String
  RawQuery : String
  deriving DecidableEq, Repr

/-- The inbound `*http.Request`.  `Body` is what the single-read stream
`r.Body` still holds. -/
structure Request where
  Method : String
  URL : URL
  Header : List (String × String)
  Body : Bytes
  RequestURI : String
  deriving DecidableEq, Repr

/-- An `io.Reader` that yields `data` and then ends: with EOF when `err` is
`none`, with that read error otherwise. -/
structure Reader where
  data : Bytes
  err : Option String
  deriving DecidableEq, Repr

/-- Model of `io.ReadAll`: the bytes read and the error, `none` at EOF. -/
def ioReadAll (rd : Reader) : Bytes × Option String :=
  (rd.data, rd.err)

/-- The backend's `*http.Response`. -/
structure Response where
  StatusCode : Int
  Body : Reader
  deriving DecidableEq, Repr

/-- The outbound request `doRequest` hands to `client.Do`: what
`http.NewRequest(r.Method, proxyURL, r.Body)` built, with `req.Header = r.Header`.
`Body` is what the transport obtained from the body stream while sending. -/
structure OutRequest where
  Method : String
  URL : String
  Header : List (String × String)
  Body : Bytes
  deriving DecidableEq, Repr

/-- Verdicts of `jsondiff.Compare` (type `jsondiff.Difference`). -/
inductive Difference where
  | FullMatch
  | SupersetMatch
  | NoMatch
  | FirstArgIsInvalidJson
  | SecondArgIsInvalidJson
  | BothArgsAreInvalidJson
  deriving DecidableEq, Repr

/-- A `jsondiff.Tag`. -/
structure Tag where
  Begin : String
  End : String
  deriving DecidableEq, Repr

/-- The fields of `jsondiff.Options` that `handleRequest` sets. -/
structure Options where
  Added : Tag
  Removed : Tag
  Changed : Tag
  ChangedSeparator : String
  Indent : String
  SkipMatches : Bool
  deriving DecidableEq, Repr

/-- Everything outside `main.go` that a request depends on. -/
structure World where
  /-- Result of `url.Parse`: `none` when it returns an error, and with it a nil `*URL`. -/
  urlParse : String → Option URL
  /-- Result of `http.NewRequest` on a method and a target: the error, when it refuses them. -/
  newRequest : String → String → Option String
  /-- Result of `client.Do`: the response, or the error. -/
  clientDo : OutRequest → Except String Response
  /-- Result of `jsondiff.Compare`: the verdict and the diff text. -/
  compare : Bytes → Bytes → Options → Difference × String
  /-- Scheduling of the primary goroutine: of the bytes still in `r.Body`, which ones its reads obtain. -/
  readsA : List Bool
  /-- Scheduling of the candidate goroutine, over the bytes the primary left. -/
  readsB : List Bool

/-- Reads of a shared single-read stream by one of its readers: a byte marked
`true` goes to this reader, the others stay in the stream.  Once the marks run
out the reader has stopped.  Returns what was read and what is left. -/
def readBody : List Bool → Bytes → Bytes × Bytes
  | _, [] => ([], [])
  | [], b :: bs => ([], b :: bs)
  | true :: m, b :: bs => ((b :: (readBody m bs).1), (readBody m bs).2)
  | false :: m, b :: bs => ((readBody m bs).1, (b :: (readBody m bs).2))

/-- How a call of a Go function with results `([]byte, error)` ends. -/
inductive Result where
  | returned (body : Option Bytes) (err : Option String)
  | panicked
  deriving DecidableEq, Repr

/-- A finished call of `doRequest`: how it ended, what it left unread in
`r.Body`, and the requests it handed to `client.Do`. -/
structure Call where
  result : Result
  rest : Bytes
  sent : List OutRequest
  deriving DecidableEq, Repr

/-- The process-wide variables of `main.go`.  The counters are Go `int`s that
start at zero and move by one per request.  They are modelled as integers,
which is exact as long as no counter passes the largest `int`; on a 64-bit
platform that takes a run of 2^63 requests. -/
structure Server where
  primary : String
  candidate : String
  numMatch : Int
  numDiff : Int
  numTotal : Int
  deriving DecidableEq, Repr

/-- The process-wide variables when `main` starts serving: the two addresses
from the flags, every counter zero. -/
def start (primary candidate : String) : Server :=
  { primary := primary, candidate := candidate, numMatch := 0, numDiff := 0, numTotal := 0 }

/-- What a handler has put into its `http.ResponseWriter`. -/
structure ResponseWriter where
  header : List (String × String)
  body : String
  deriving DecidableEq, Repr

/-- The writer a handler receives: no header set, nothing written. -/
def ResponseWriter.fresh : ResponseWriter :=
  { header := [], body := "" }

/-- Model of `w.Header().Set(key, value)`. -/
def ResponseWriter.setHeader (w : ResponseWriter) (key value : String) : ResponseWriter :=
  { w with header := (key, value) :: w.header.filter (fun kv => kv.1 ≠ key) }

/-- Model of `w.Write`. -/
def ResponseWriter.write (w : ResponseWriter) (text : String) : ResponseWriter :=
  { w with body := w.body ++ text }

/-- A finished call of a handler: the process-wide variables, the response,
the lines logged, and the requests sent to the backends. -/
structure Served where
  srv : Server
  w : ResponseWriter
  log : List String
  sent : List OutRequest
  deriving DecidableEq, Repr

/-! ## The program -/

/-- Function `showResult` of `main.go`. -/
def showResult (s : Server) (w : ResponseWriter) (_r : Request) : ResponseWriter :=
  let w := w.setHeader "Content-Type" "text/plain"
  w.write (sprintf "numTotal: %d\nnumDiff: %d\nnumMatch: %d\nnumIgnore: %d\n"
    [Arg.int s.numTotal, Arg.int s.numDiff, Arg.int s.numMatch,
     Arg.int (s.numTotal - s.numDiff - s.numMatch)])

/-- Function `doRequest` of `main.go`.  `reads` is the scheduling of this
call over the bytes of `r.Body`, which the other call reads as well. -/
def doRequest (world : World) (backend : String) (r : Request) (reads : List Bool) : Call :=
  match world.urlParse backend with
  | none => { result := Result.panicked, rest := r.Body, sent := [] }
  | some backendURL =>
    let proxyURL := sprintf "%s://%s%s"
      [Arg.str backendURL.Scheme, Arg.str backendURL.Host, Arg.str r.RequestURI]
    match world.newRequest r.Method proxyURL with
    | some err => { result := Result.returned none (some err), rest := r.Body, sent := [] }
    | none =>
      let req : OutRequest :=
        { Method := r.Method, URL := proxyURL, Header := r.Header, Body := (readBody reads r.Body).1 }
      let rest := (readBody reads r.Body).2
      match world.clientDo req with
      | Except.error err => { result := Result.returned none (some err), rest := rest, sent := [req] }
      | Except.ok resp =>
        if resp.StatusCode ≠ 200 then
          { result := Result.returned none (some (sprintf "status: %d" [Arg.int resp.StatusCode])),
            rest := rest, sent := [req] }
        else
          match ioReadAll resp.Body with
          | (_, some err) => { result := Result.returned none (some err), rest := rest, sent := [req] }
          | (respBody, none) => { result := Result.returned (some respBody) none, rest := rest, sent := [req] }

/-- The two concurrent calls of `handleRequest` and their join: the call to
the primary and the call to the candidate, both on the same `r`. -/
def dispatch (world : World) (s : Server) (r : Request) : Call × Call :=
  let a := doRequest world s.primary r world.readsA
  let b := doRequest world s.candidate { r with Body := a.rest } world.readsB
  (a, b)

/-- The `jsondiff.Options` that `handleRequest` builds. -/
def options : Options :=
  { Added := { Begin := "++ ", End := "" },
    Removed := { Begin := "-- ", End := "" },
    Changed := { Begin := "!! ", End := "" },
    ChangedSeparator := ", ",
    Indent := "    ",
    SkipMatches := true }

/-- The `[detail]` lines that `handleRequest` logs after a mismatch. -/
def detailLines (m : Difference) (diffstr : String) (respA respB : Bytes) : List String :=
  [sprintln ["[detail]", diffstr]]
  ++ (if m = Difference.BothArgsAreInvalidJson ∨ m = Difference.FirstArgIsInvalidJson then
        [sprintln ["[detail]", "[primary]", bytesToString respA]] else [])
  ++ (if m = Difference.BothArgsAreInvalidJson ∨ m = Difference.SecondArgIsInvalidJson then
        [sprintln ["[detail]", "[candidate]", bytesToString respB]] else [])

/-- Function `handleRequest` of `main.go`.  `none`: one of the two goroutines
panicked, which ends the process.  The lines logged are kept as `log.Println`
formats them, without the date and time the logger puts in front. -/
def handleRequest (world : World) (s : Server) (w : ResponseWriter) (r : Request) : Option Served :=
  if r.RequestURI = "/" ∨ r.RequestURI = "" then
    some { srv := s, w := showResult s w r, log := [], sent := [] }
  else
    match (dispatch world s r).1.result, (dispatch world s r).2.result with
    | Result.returned respA errA, Result.returned respB errB =>
      let sent := (dispatch world s r).1.sent ++ (dispatch world s r).2.sent
      let s := { s with numTotal := s.numTotal + 1 }
      match errA, errB with
      | some _, some _ =>
        some { srv := s, w := w, sent := sent,
               log := [sprintln ["[result]", "[ignore]", "ALL FAIL", r.URL.Path, r.URL.RawQuery]] }
      | some _, none =>
        some { srv := s, w := w, sent := sent,
               log := [sprintln ["[result]", "[ignore]", "PRIMARY FAIL", r.URL.Path, r.URL.RawQuery]] }
      | none, some eB =>
        some { srv := { s with numDiff := s.numDiff + 1 }, w := w, sent := sent,
               log := [sprintln ["[result]", "[diff]", "CANDIDATE FAIL", eB, r.URL.Path, r.URL.RawQuery]] }
      | none, none =>
        let cmp := world.compare (respA.getD []) (respB.getD []) options
        if cmp.1 = Difference.FullMatch then
          let s := { s with numMatch := s.numMatch + 1 }
          some { srv := s, w := showResult s w r, sent := sent,
                 log := [sprintln ["[result]", "[match]", r.URL.Path, r.URL.RawQuery]] }
        else
          let s := { s with numDiff := s.numDiff + 1 }
          some { srv := s, w := showResult s w r, sent := sent,
                 log := sprintln ["[result]", "[diff]", "MISMATCH", r.URL.Path, r.URL.RawQuery]
                        :: detailLines cmp.1 cmp.2 (respA.getD []) (respB.getD []) }
    | _, _ => none

/-- One inbound request, by the handler it is routed to. -/
inductive Inbound where
  | handle (world : World) (r : Request)
  | result (r : Request)

/-- One inbound request served on a fresh writer. -/
def serve (s : Server) : Inbound → Option Served
  | Inbound.handle world r => handleRequest world s ResponseWriter.fresh r
  | Inbound.result r => some { srv := s, w := showResult s ResponseWriter.fresh r, log := [], sent := [] }

/-- The process-wide variables after a sequence of inbound requests, served
one after another; `none` when the process ended on the way. -/
def run (s : Server) : List Inbound → Option Server
  | [] => some s
  | i :: rest =>
    match serve s i with
    | none => none
    | some d => run d.srv rest

/-! ## Vocabulary of the statements -/

/-- The inbound request is a comparison request: it is routed to
`handleRequest` and its target is not the report path. -/
def Inbound.isComparison : Inbound → Prop
  | Inbound.handle _ r => r.RequestURI ≠ "/" ∧ r.RequestURI ≠ ""
  | Inbound.result _ => False

/-- Both calls of `doRequest` made for the inbound request return, whatever
they return: neither ends in a panic.  Holds of every request that makes no
backend call. -/
def Inbound.backendsReturn (s : Server) : Inbound → Prop
  | Inbound.handle world r =>
    (r.RequestURI = "/" ∨ r.RequestURI = "")
      ∨ ((dispatch world s r).1.result ≠ Result.panicked
          ∧ (dispatch world s r).2.result ≠ Result.panicked)
  | Inbound.result _ => True

instance (i : Inbound) : Decidable i.isComparison := by
  cases i <;> simp only [Inbound.isComparison] <;> infer_instance

instance (s : Server) (i : Inbound) : Decidable (i.backendsReturn s) := by
  cases i <;> simp only [Inbound.backendsReturn] <;> infer_instance

/-- The text `needle` occurs in the text `hay`. -/
def occursIn (needle hay : String) : Bool :=
  hay.toList.tails.any (fun t => needle.toList.isPrefixOf t)

/-- The number a decimal digit stands for. -/
def digitValue (c : Char) : Nat :=
  c.toNat - '0'.toNat

/-- The number a string of decimal digits stands for. -/
def decimalValue (cs : List Char) : Nat :=
  cs.foldl (fun acc c => 10 * acc + digitValue c) 0

/-! ## Concrete inputs -/

/-- Example configuration. -/
def demoServer : Server :=
  start "http://primary:8080" "http://candidate:8080"

/-- Example of `url.Parse`: the two addresses of `demoServer` parse, any
other text is rejected (as `url.Parse` rejects `":80"`, which has no scheme). -/
def demoParse (backend : String) : Option URL :=
  if backend = "http://primary:8080" then
    some { Scheme := "http", Host := "primary:8080", Path := "", RawQuery := "" }
  else if backend = "http://candidate:8080" then
    some { Scheme := "http", Host := "candidate:8080", Path := "", RawQuery := "" }
  else none

/-- Example world: the primary answers `doA`, the candidate `doB`; payloads
compare equal exactly when they are the same bytes; each goroutine takes the
first two bytes it finds in the body. -/
def demoWorld (doA doB : Except String Response) : World :=
  { urlParse := demoParse,
    newRequest := fun _ _ => none,
    clientDo := fun req => if req.URL = "http://primary:8080/api?x=1" then doA else doB,
    compare := fun a b _ => if a = b then (Difference.FullMatch, "") else (Difference.NoMatch, "!! differs"),
    readsA := [true, true],
    readsB := [true, true] }

/-- A backend answer with status 200 and a body that reads to the end. -/
def ok200 (body : Bytes) : Except String Response :=
  Except.ok { StatusCode := 200, Body := { data := body, err := none } }

/-- A backend answer with status 500. -/
def status500 : Except String Response :=
  Except.ok { StatusCode := 500, Body := { data := [], err := none } }

/-- Example comparison request: `GET /api?x=1`, no body. -/
def demoRequest : Request :=
  { Method := "GET",
    URL := { Scheme := "", Host := "", Path := "/api", RawQuery := "x=1" },
    Header := [], Body := [], RequestURI := "/api?x=1" }

/-- Example comparison request with a body: `POST /api?x=1` carrying the two bytes `hi`. -/
def demoPost : Request :=
  { demoRequest with Method := "POST", Body := [104, 105] }

/-- Example report read: `GET /`. -/
def demoReport : Request :=
  { demoRequest with URL := { Scheme := "", Host := "", Path := "/", RawQuery := "" }, RequestURI := "/" }

/-- Example world in which the primary answers 500 and the candidate 200. -/
def primaryDown : World := demoWorld status500 (ok200 [123, 125])

/-- Example world in which the primary answers 200 and the candidate 500. -/
def candidateDown : World := demoWorld (ok200 [123, 125]) status500

/-- Example world in which both backends answer 500. -/
def bothDown : World := demoWorld status500 status500

/-- Example world in which both backends answer 200 with the same payload. -/
def bothAgree : World := demoWorld (ok200 [123, 125]) (ok200 [123, 125])

/-- Example world in which both backends answer 200 with different payloads. -/
def bothDiffer : World := demoWorld (ok200 [123, 125]) (ok200 [91, 93])

/-- Example traffic: five comparison requests, one for each row of the table. -/
def demoTraffic : List Inbound :=
  [Inbound.handle bothAgree demoRequest, Inbound.handle primaryDown demoRequest,
   Inbound.handle candidateDown demoPost, Inbound.handle bothDiffer demoRequest,
   Inbound.handle bothDown demoRequest]

/-- Example traffic with report reads in between. -/
def demoMixed : List Inbound :=
  [Inbound.handle bothDown demoRequest, Inbound.result demoReport,
   Inbound.handle bothAgree demoRequest, Inbound.handle bothAgree demoReport,
   Inbound.handle candidateDown demoRequest]

/-- Example world: as `bothAgree`, but the candidate goroutine reads the body
first and the primary finds what is left. -/
def candidateFirst : World :=
  { bothAgree with readsA := [], readsB := [true, true] }

/-- Example world: as `bothAgree`, but the two goroutines take one byte each. -/
def alternating : World :=
  { bothAgree with readsA := [true, false], readsB := [true] }

/-- Example counters: ten requests, seven matches, two diffs. -/
def demoCounters : Server :=
  { demoServer with numTotal := 10, numDiff := 2, numMatch := 7 }

end Diffy

namespace Diffy

/-! ## The report -/

theorem sprintf_report (t d m i : Int) :
    sprintf "numTotal: %d\nnumDiff: %d\nnumMatch: %d\nnumIgnore: %d\n"
        [Arg.int t, Arg.int d, Arg.int m, Arg.int i]
      = "numTotal: " ++ String.mk (fmtD t) ++ "\n" ++ "numDiff: " ++ String.mk (fmtD d) ++ "\n"
        ++ "numMatch: " ++ String.mk (fmtD m) ++ "\n" ++ "numIgnore: " ++ String.mk (fmtD i) ++ "\n" := by
  apply String.ext
  simp [sprintf, sprintfAux, fmtVerb]

theorem fmtD_eq_toString (i : Int) : String.mk (fmtD i) = toString i := by
  cases i with
  | ofNat n =>
    have h : ¬ ((n : Int) < 0) := by omega
    simp [fmtD, h, toString, Nat.repr, List.asString]
  | negSucc n =>
    have h : Int.negSucc n < 0 := Int.negSucc_lt_zero n
    simp [fmtD, h, toString, Nat.repr, List.asString, Int.natAbs]
    rfl

/-! ## The branches of `handleRequest` -/

theorem handleRequest_report (world : World) (s : Server) (w : ResponseWriter) (r : Request)
    (h : r.RequestURI = "/" ∨ r.RequestURI = "") :
    handleRequest world s w r = some { srv := s, w := showResult s w r, log := [], sent := [] } := by
  simp [handleRequest, h]

theorem handleRequest_panicA (world : World) (s : Server) (w : ResponseWriter) (r : Request)
    (hcmp : ¬ (r.RequestURI = "/" ∨ r.RequestURI = ""))
    (hA : (dispatch world s r).1.result = Result.panicked) :
    handleRequest world s w r = none := by
  simp [handleRequest, hcmp, hA]

theorem handleRequest_panicB (world : World) (s : Server) (w : ResponseWriter) (r : Request)
    (hcmp : ¬ (r.RequestURI = "/" ∨ r.RequestURI = ""))
    (hB : (dispatch world s r).2.result = Result.panicked) :
    handleRequest world s w r = none := by
  cases hA : (dispatch world s r).1.result <;> simp [handleRequest, hcmp, hA, hB]

theorem handleRequest_allFail (world : World) (s : Server) (w : ResponseWriter) (r : Request)
    (hcmp : ¬ (r.RequestURI = "/" ∨ r.RequestURI = ""))
    (respA respB : Option Bytes) (eA eB : String)
    (hA : (dispatch world s r).1.result = Result.returned respA (some eA))
    (hB : (dispatch world s r).2.result = Result.returned respB (some eB)) :
    handleRequest world s w r
      = some { srv := { s with numTotal := s.numTotal + 1 }, w := w,
               sent := (dispatch world s r).1.sent ++ (dispatch world s r).2.sent,
               log := [sprintln ["[result]", "[ignore]", "ALL FAIL", r.URL.Path, r.URL.RawQuery]] } := by
  simp [handleRequest, hcmp, hA, hB]

theorem handleRequest_primaryFail (world : World) (s : Server) (w : ResponseWriter) (r : Request)
    (hcmp : ¬ (r.RequestURI = "/" ∨ r.RequestURI = ""))
    (respA respB : Option Bytes) (eA : String)
    (hA : (dispatch world s r).1.result = Result.returned respA (some eA))
    (hB : (dispatch world s r).2.result = Result.returned respB none) :
    handleRequest world s w r
      = some { srv := { s with numTotal := s.numTotal + 1 }, w := w,
               sent := (dispatch world s r).1.sent ++ (dispatch world s r).2.sent,
               log := [sprintln ["[result]", "[ignore]", "PRIMARY FAIL", r.URL.Path, r.URL.RawQuery]] } := by
  simp [handleRequest, hcmp, hA, hB]

theorem handleRequest_candidateFail (world : World) (s : Server) (w : ResponseWriter) (r : Request)
    (hcmp : ¬ (r.RequestURI = "/" ∨ r.RequestURI = ""))
    (respA respB : Option Bytes) (eB : String)
    (hA : (dispatch world s r).1.result = Result.returned respA none)
    (hB : (dispatch world s r).2.result = Result.returned respB (some eB)) :
    handleRequest world s w r
      = some { srv := { s with numTotal := s.numTotal + 1, numDiff := s.numDiff + 1 }, w := w,
               sent := (dispatch world s r).1.sent ++ (dispatch world s r).2.sent,
               log := [sprintln ["[result]", "[diff]", "CANDIDATE FAIL", eB, r.URL.Path, r.URL.RawQuery]] } := by
  simp [handleRequest, hcmp, hA, hB]

theorem handleRequest_match (world : World) (s : Server) (w : ResponseWriter) (r : Request)
    (hcmp : ¬ (r.RequestURI = "/" ∨ r.RequestURI = ""))
    (respA respB : Option Bytes)
    (hA : (dispatch world s r).1.result = Result.returned respA none)
    (hB : (dispatch world s r).2.result = Result.returned respB none)
    (hm : (world.compare (respA.getD []) (respB.getD []) options).1 = Difference.FullMatch) :
    handleRequest world s w r
      = some { srv := { s with numTotal := s.numTotal + 1, numMatch := s.numMatch + 1 },
               w := showResult { s with numTotal := s.numTotal + 1, numMatch := s.numMatch + 1 } w r,
               sent := (dispatch world s r).1.sent ++ (dispatch world s r).2.sent,
               log := [sprintln ["[result]", "[match]", r.URL.Path, r.URL.RawQuery]] } := by
  simp [handleRequest, hcmp, hA, hB, hm]

theorem handleRequest_mismatch (world : World) (s : Server) (w : ResponseWriter) (r : Request)
    (hcmp : ¬ (r.RequestURI = "/" ∨ r.RequestURI = ""))
    (respA respB : Option Bytes)
    (hA : (dispatch world s r).1.result = Result.returned respA none)
    (hB : (dispatch world s r).2.result = Result.returned respB none)
    (hm : (world.compare (respA.getD []) (respB.getD []) options).1 ≠ Difference.FullMatch) :
    handleRequest world s w r
      = some { srv := { s with numTotal := s.numTotal + 1, numDiff := s.numDiff + 1 },
               w := showResult { s with numTotal := s.numTotal + 1, numDiff := s.numDiff + 1 } w r,
               sent := (dispatch world s r).1.sent ++ (dispatch world s r).2.sent,
               log := sprintln ["[result]", "[diff]", "MISMATCH", r.URL.Path, r.URL.RawQuery]
                 :: detailLines (world.compare (respA.getD []) (respB.getD []) options).1
                      (world.compare (respA.getD []) (respB.getD []) options).2
                      (respA.getD []) (respB.getD []) } := by
  simp [handleRequest, hcmp, hA, hB, hm]

/-! ## The ends of `doRequest` -/

theorem doRequest_panicked_iff (world : World) (backend : String) (r : Request) (reads : List Bool) :
    (doRequest world backend r reads).result = Result.panicked ↔ world.urlParse backend = none := by
  unfold doRequest
  cases world.urlParse backend with
  | none => simp
  | some u =>
    simp only
    cases world.newRequest r.Method _ with
    | some e => simp
    | none =>
      simp only
      cases world.clientDo _ with
      | error e => simp
      | ok resp =>
        simp only [ioReadAll]
        split
        · simp
        · cases resp.Body.err <;> simp

theorem doRequest_returned (world : World) (backend : String) (r : Request) (reads : List Bool)
    (h : world.urlParse backend ≠ none) :
    ∃ body err, (doRequest world backend r reads).result = Result.returned body err := by
  cases hres : (doRequest world backend r reads).result with
  | returned body err => exact ⟨body, err, rfl⟩
  | panicked => exact absurd ((doRequest_panicked_iff world backend r reads).1 hres) h

theorem sprintf_target (a b c : String) :
    sprintf "%s://%s%s" [Arg.str a, Arg.str b, Arg.str c] = a ++ "://" ++ b ++ c := by
  apply String.ext
  simp [sprintf, sprintfAux, fmtVerb]

theorem sprintf_status (code : Int) :
    sprintf "status: %d" [Arg.int code] = "status: " ++ toString code := by
  rw [← fmtD_eq_toString]
  apply String.ext
  simp [sprintf, sprintfAux, fmtVerb]

/-- The ends of `doRequest` on a backend address that `url.Parse` accepts. -/
theorem doRequest_parsed (world : World) (backend : String) (r : Request) (reads : List Bool)
    (u : URL) (hu : world.urlParse backend = some u) :
    (∀ body : Bytes,
      (doRequest world backend r reads).result = Result.returned (some body) none ↔
        (world.newRequest r.Method (u.Scheme ++ "://" ++ u.Host ++ r.RequestURI) = none ∧
          ∃ resp, world.clientDo
              { Method := r.Method, URL := u.Scheme ++ "://" ++ u.Host ++ r.RequestURI,
                Header := r.Header, Body := (readBody reads r.Body).1 } = Except.ok resp
            ∧ resp.StatusCode = 200 ∧ resp.Body.err = none ∧ resp.Body.data = body))
    ∧ ((∃ body, (doRequest world backend r reads).result = Result.returned (some body) none)
        ∨ (∃ e, (doRequest world backend r reads).result = Result.returned none (some e)))
    ∧ (∀ resp, world.newRequest r.Method (u.Scheme ++ "://" ++ u.Host ++ r.RequestURI) = none →
        world.clientDo
            { Method := r.Method, URL := u.Scheme ++ "://" ++ u.Host ++ r.RequestURI,
              Header := r.Header, Body := (readBody reads r.Body).1 } = Except.ok resp →
        resp.StatusCode ≠ 200 →
        (doRequest world backend r reads).result
          = Result.returned none (some ("status: " ++ toString resp.StatusCode)))
    ∧ (doRequest world backend r reads).sent.length ≤ 1 := by
  unfold doRequest
  simp only [hu, sprintf_target, sprintf_status, ioReadAll]
  cases hn : world.newRequest r.Method (u.Scheme ++ "://" ++ u.Host ++ r.RequestURI) with
  | some e => simp
  | none =>
    simp only
    cases hd : world.clientDo
        { Method := r.Method, URL := u.Scheme ++ "://" ++ u.Host ++ r.RequestURI,
          Header := r.Header, Body := (readBody reads r.Body).1 } with
    | error e => simp
    | ok resp =>
      simp only
      by_cases hs : resp.StatusCode = 200
      · cases he : resp.Body.err with
        | none => simp [hs, he]
        | some e => simp [hs, he]
      · simp [hs]

/-- The ends of `doRequest`.  When `url.Parse` rejects the backend address,
`doRequest` panics.  When it accepts the address, `doRequest` returns the body
and a nil error exactly when `http.NewRequest` built the request, `client.Do`
performed it, the status is 200 and the body read to the end, and the bytes
returned are then the response body; in every other case it returns a nil body
and a non-nil error; for a status other than 200 the error text is `status: `
followed by the code; and `client.Do` is called at most once. -/
theorem doRequest_outcome (world : World) (backend : String) (r : Request) (reads : List Bool) :
    (world.urlParse backend = none →
      (doRequest world backend r reads).result = Result.panicked)
    ∧ (∀ u : URL, world.urlParse backend = some u →
      (∀ body : Bytes,
        (doRequest world backend r reads).result = Result.returned (some body) none ↔
          (world.newRequest r.Method (u.Scheme ++ "://" ++ u.Host ++ r.RequestURI) = none ∧
            ∃ resp, world.clientDo
                { Method := r.Method, URL := u.Scheme ++ "://" ++ u.Host ++ r.RequestURI,
                  Header := r.Header, Body := (readBody reads r.Body).1 } = Except.ok resp
              ∧ resp.StatusCode = 200 ∧ resp.Body.err = none ∧ resp.Body.data = body))
      ∧ ((∃ body, (doRequest world backend r reads).result = Result.returned (some body) none)
          ∨ (∃ e, (doRequest world backend r reads).result = Result.returned none (some e)))
      ∧ (∀ resp, world.newRequest r.Method (u.Scheme ++ "://" ++ u.Host ++ r.RequestURI) = none →
          world.clientDo
              { Method := r.Method, URL := u.Scheme ++ "://" ++ u.Host ++ r.RequestURI,
                Header := r.Header, Body := (readBody reads r.Body).1 } = Except.ok resp →
          resp.StatusCode ≠ 200 →
          (doRequest world backend r reads).result
            = Result.returned none (some ("status: " ++ toString resp.StatusCode)))
      ∧ (doRequest world backend r reads).sent.length ≤ 1) :=
  ⟨(doRequest_panicked_iff world backend r reads).2,
   fun u hu => doRequest_parsed world backend r reads u hu⟩

/-- The ends of `doRequest` at concrete inputs: a candidate that answers 500,
and a primary that answers 200 with the one-byte body `[1]`. -/
theorem doRequest_outcome_witness :
    (doRequest (demoWorld (ok200 [1]) status500) "http://candidate:8080" demoRequest []).result
        = Result.returned none (some ("status: " ++ toString (500 : Int)))
    ∧ (doRequest (demoWorld (ok200 [1]) status500) "http://primary:8080" demoRequest []).result
        = Result.returned (some [1]) none := by
  constructor
  · exact ((doRequest_outcome (demoWorld (ok200 [1]) status500) "http://candidate:8080" demoRequest
      []).2 { Scheme := "http", Host := "candidate:8080", Path := "", RawQuery := "" }
      (by decide)).2.2.1
      { StatusCode := 500, Body := { data := [], err := none } } (by decide) rfl (by decide)
  · exact (((doRequest_outcome (demoWorld (ok200 [1]) status500) "http://primary:8080" demoRequest
      []).2 { Scheme := "http", Host := "primary:8080", Path := "", RawQuery := "" }
      (by decide)).1 [1]).2
      ⟨by decide, { StatusCode := 200, Body := { data := [1], err := none } },
        rfl, by decide, by decide, by decide⟩

/-- C7, the code at the failing input.  The backend address `:80` has no
scheme, so `url.Parse` returns an error and a nil URL; `doRequest` discards the
error, reads the scheme of the nil URL and panics.  It returns neither the body
nor an error, where its other three error paths return a nil body and the error. -/
theorem doRequest_unparsable_panics :
    (doRequest (demoWorld (ok200 [1]) (ok200 [1])) ":80" demoRequest []).result = Result.panicked
    ∧ (¬ ∃ body, (doRequest (demoWorld (ok200 [1]) (ok200 [1])) ":80" demoRequest []).result
          = Result.returned (some body) none)
    ∧ (¬ ∃ e, (doRequest (demoWorld (ok200 [1]) (ok200 [1])) ":80" demoRequest []).result
          = Result.returned none (some e)) := by
  have h : (doRequest (demoWorld (ok200 [1]) (ok200 [1])) ":80" demoRequest []).result
      = Result.panicked := by decide
  refine ⟨h, ?_, ?_⟩
  · rintro ⟨b, hb⟩
    rw [h] at hb
    cases hb
  · rintro ⟨e, he⟩
    rw [h] at he
    cases he

/-! ## One comparison request -/

theorem result_returned (res : Result) (h : res ≠ Result.panicked) :
    ∃ body err, res = Result.returned body err := by
  cases res with
  | returned body err => exact ⟨body, err, rfl⟩
  | panicked => exact absurd rfl h

theorem dispatch_congr (world : World) (s s' : Server) (r : Request)
    (hp : s'.primary = s.primary) (hc : s'.candidate = s.candidate) :
    dispatch world s' r = dispatch world s r := by
  simp only [dispatch, hp, hc]

theorem handleRequest_returned (world : World) (s : Server) (w : ResponseWriter) (r : Request)
    (hcmp : ¬ (r.RequestURI = "/" ∨ r.RequestURI = ""))
    (respA respB : Option Bytes) (errA errB : Option String)
    (hA : (dispatch world s r).1.result = Result.returned respA errA)
    (hB : (dispatch world s r).2.result = Result.returned respB errB) :
    ∃ d, handleRequest world s w r = some d
      ∧ d.srv.primary = s.primary ∧ d.srv.candidate = s.candidate
      ∧ d.srv.numTotal = s.numTotal + 1
      ∧ ((d.srv.numMatch = s.numMatch ∧ d.srv.numDiff = s.numDiff)
          ∨ (d.srv.numMatch = s.numMatch + 1 ∧ d.srv.numDiff = s.numDiff)
          ∨ (d.srv.numMatch = s.numMatch ∧ d.srv.numDiff = s.numDiff + 1)) := by
  cases errA with
  | some eA =>
    cases errB with
    | some eB => exact ⟨_, handleRequest_allFail world s w r hcmp respA respB eA eB hA hB, by simp⟩
    | none => exact ⟨_, handleRequest_primaryFail world s w r hcmp respA respB eA hA hB, by simp⟩
  | none =>
    cases errB with
    | some eB => exact ⟨_, handleRequest_candidateFail world s w r hcmp respA respB eB hA hB, by simp⟩
    | none =>
      by_cases hm : (world.compare (respA.getD []) (respB.getD []) options).1 = Difference.FullMatch
      · exact ⟨_, handleRequest_match world s w r hcmp respA respB hA hB hm, by simp⟩
      · exact ⟨_, handleRequest_mismatch world s w r hcmp respA respB hA hB hm, by simp⟩

theorem handleRequest_step (world : World) (s : Server) (w : ResponseWriter) (r : Request)
    (hcmp : ¬ (r.RequestURI = "/" ∨ r.RequestURI = ""))
    (hA : (dispatch world s r).1.result ≠ Result.panicked)
    (hB : (dispatch world s r).2.result ≠ Result.panicked) :
    ∃ d, handleRequest world s w r = some d
      ∧ d.srv.primary = s.primary ∧ d.srv.candidate = s.candidate
      ∧ d.srv.numTotal = s.numTotal + 1
      ∧ ((d.srv.numMatch = s.numMatch ∧ d.srv.numDiff = s.numDiff)
          ∨ (d.srv.numMatch = s.numMatch + 1 ∧ d.srv.numDiff = s.numDiff)
          ∨ (d.srv.numMatch = s.numMatch ∧ d.srv.numDiff = s.numDiff + 1)) := by
  obtain ⟨respA, errA, h1⟩ := result_returned _ hA
  obtain ⟨respB, errB, h2⟩ := result_returned _ hB
  exact handleRequest_returned world s w r hcmp respA respB errA errB h1 h2

theorem backendsReturn_congr (i : Inbound) (s s' : Server)
    (hp : s'.primary = s.primary) (hc : s'.candidate = s.candidate)
    (h : i.backendsReturn s) : i.backendsReturn s' := by
  cases i with
  | result r => exact trivial
  | handle world r =>
    simp only [Inbound.backendsReturn, dispatch_congr world s s' r hp hc]
    exact h

/-- C1.  A comparison request whose two calls of `doRequest` return changes the
counters as the table of the Outcome Classifier says.  Primary failed (non-nil
`errA`), whatever the candidate did: `numTotal+1` only.  Primary succeeded and
candidate failed: `numTotal+1`, `numDiff+1`.  Both succeeded and the verdict is
`FullMatch`: `numTotal+1`, `numMatch+1`.  Both succeeded and the verdict is
anything else: `numTotal+1`, `numDiff+1`.  No pair of returned results is left
out: whatever the two calls return, the request is counted in one of these ways. -/
theorem handleRequest_counters (world : World) (s : Server) (w : ResponseWriter) (r : Request)
    (hcmp : r.RequestURI ≠ "/" ∧ r.RequestURI ≠ "") :
    (∀ respA eA respB errB,
        (dispatch world s r).1.result = Result.returned respA (some eA) →
        (dispatch world s r).2.result = Result.returned respB errB →
        ∃ d, handleRequest world s w r = some d ∧ d.srv.numTotal = s.numTotal + 1
          ∧ d.srv.numMatch = s.numMatch ∧ d.srv.numDiff = s.numDiff)
    ∧ (∀ respA respB eB,
        (dispatch world s r).1.result = Result.returned respA none →
        (dispatch world s r).2.result = Result.returned respB (some eB) →
        ∃ d, handleRequest world s w r = some d ∧ d.srv.numTotal = s.numTotal + 1
          ∧ d.srv.numMatch = s.numMatch ∧ d.srv.numDiff = s.numDiff + 1)
    ∧ (∀ respA respB,
        (dispatch world s r).1.result = Result.returned respA none →
        (dispatch world s r).2.result = Result.returned respB none →
        (world.compare (respA.getD []) (respB.getD []) options).1 = Difference.FullMatch →
        ∃ d, handleRequest world s w r = some d ∧ d.srv.numTotal = s.numTotal + 1
          ∧ d.srv.numMatch = s.numMatch + 1 ∧ d.srv.numDiff = s.numDiff)
    ∧ (∀ respA respB,
        (dispatch world s r).1.result = Result.returned respA none →
        (dispatch world s r).2.result = Result.returned respB none →
        (world.compare (respA.getD []) (respB.getD []) options).1 ≠ Difference.FullMatch →
        ∃ d, handleRequest world s w r = some d ∧ d.srv.numTotal = s.numTotal + 1
          ∧ d.srv.numMatch = s.numMatch ∧ d.srv.numDiff = s.numDiff + 1)
    ∧ (∀ respA errA respB errB,
        (dispatch world s r).1.result = Result.returned respA errA →
        (dispatch world s r).2.result = Result.returned respB errB →
        ∃ d, handleRequest world s w r = some d ∧ d.srv.numTotal = s.numTotal + 1
          ∧ ((d.srv.numMatch = s.numMatch ∧ d.srv.numDiff = s.numDiff)
            ∨ (d.srv.numMatch = s.numMatch + 1 ∧ d.srv.numDiff = s.numDiff)
            ∨ (d.srv.numMatch = s.numMatch ∧ d.srv.numDiff = s.numDiff + 1))) := by
  have hc : ¬ (r.RequestURI = "/" ∨ r.RequestURI = "") := by
    rintro (h | h)
    · exact hcmp.1 h
    · exact hcmp.2 h
  refine ⟨?_, ?_, ?_, ?_, ?_⟩
  · intro respA eA respB errB hA hB
    cases errB with
    | some eB => exact ⟨_, handleRequest_allFail world s w r hc respA respB eA eB hA hB, by simp⟩
    | none => exact ⟨_, handleRequest_primaryFail world s w r hc respA respB eA hA hB, by simp⟩
  · intro respA respB eB hA hB
    exact ⟨_, handleRequest_candidateFail world s w r hc respA respB eB hA hB, by simp⟩
  · intro respA respB hA hB hm
    exact ⟨_, handleRequest_match world s w r hc respA respB hA hB hm, by simp⟩
  · intro respA respB hA hB hm
    exact ⟨_, handleRequest_mismatch world s w r hc respA respB hA hB hm, by simp⟩
  · intro respA errA respB errB hA hB
    obtain ⟨d, hd, _, _, ht, hm⟩ :=
      handleRequest_returned world s w r hc respA respB errA errB hA hB
    exact ⟨d, hd, ht, hm⟩

/-! ## Sequences of requests -/

theorem serve_step (s : Server) (i : Inbound) (hret : i.backendsReturn s) :
    ∃ d, serve s i = some d
      ∧ d.srv.primary = s.primary ∧ d.srv.candidate = s.candidate
      ∧ ((i.isComparison ∧ d.srv.numTotal = s.numTotal + 1
            ∧ ((d.srv.numMatch = s.numMatch ∧ d.srv.numDiff = s.numDiff)
              ∨ (d.srv.numMatch = s.numMatch + 1 ∧ d.srv.numDiff = s.numDiff)
              ∨ (d.srv.numMatch = s.numMatch ∧ d.srv.numDiff = s.numDiff + 1)))
          ∨ (¬ i.isComparison ∧ d.srv = s)) := by
  cases i with
  | result r => exact ⟨_, rfl, rfl, rfl, Or.inr ⟨fun h => h, rfl⟩⟩
  | handle world r =>
    by_cases hrep : r.RequestURI = "/" ∨ r.RequestURI = ""
    · refine ⟨_, handleRequest_report world s ResponseWriter.fresh r hrep, rfl, rfl, Or.inr ⟨?_, rfl⟩⟩
      intro hc
      rcases hrep with h | h
      · exact hc.1 h
      · exact hc.2 h
    · have hp : (dispatch world s r).1.result ≠ Result.panicked
          ∧ (dispatch world s r).2.result ≠ Result.panicked := by
        rcases hret with h | h
        · exact absurd h hrep
        · exact h
      obtain ⟨d, hd, h1, h2, h3, h4⟩ :=
        handleRequest_step world s ResponseWriter.fresh r hrep hp.1 hp.2
      refine ⟨d, hd, h1, h2, Or.inl ⟨?_, h3, h4⟩⟩
      exact ⟨fun h => hrep (Or.inl h), fun h => hrep (Or.inr h)⟩

theorem run_inv_aux (reqs : List Inbound) :
    ∀ s : Server, (∀ i ∈ reqs, i.backendsReturn s) →
      0 ≤ s.numMatch → 0 ≤ s.numDiff → s.numMatch + s.numDiff ≤ s.numTotal →
      ∃ s', run s reqs = some s' ∧ 0 ≤ s'.numMatch ∧ 0 ≤ s'.numDiff
        ∧ s'.numMatch + s'.numDiff ≤ s'.numTotal := by
  induction reqs with
  | nil => intro s _ h1 h2 h3; exact ⟨s, rfl, h1, h2, h3⟩
  | cons i rest ih =>
    intro s hret h1 h2 h3
    obtain ⟨d, hd, hp, hc, hstep⟩ := serve_step s i (hret i (List.mem_cons_self i rest))
    have hinv : 0 ≤ d.srv.numMatch ∧ 0 ≤ d.srv.numDiff
        ∧ d.srv.numMatch + d.srv.numDiff ≤ d.srv.numTotal := by
      rcases hstep with ⟨_, ht, hm | hm | hm⟩ | ⟨_, he⟩
      · omega
      · omega
      · omega
      · rw [he]; exact ⟨h1, h2, h3⟩
    obtain ⟨s', hrun, hs'⟩ := ih d.srv
      (fun j hj => backendsReturn_congr j s d.srv hp hc (hret j (List.mem_cons_of_mem i hj)))
      hinv.1 hinv.2.1 hinv.2.2
    exact ⟨s', by simp [run, hd, hrun], hs'⟩

/-- C2.  From any state of the counters, a sequence of `N` comparison requests
whose backend calls return, whatever they return and whatever the verdicts are,
is served to the end and leaves `numTotal` at its former value plus `N`; a
single comparison request is the case `N = 1`. -/
theorem run_numTotal (s : Server) (reqs : List Inbound)
    (hcmp : ∀ i ∈ reqs, i.isComparison)
    (hret : ∀ i ∈ reqs, i.backendsReturn s) :
    ∃ s', run s reqs = some s' ∧ s'.numTotal = s.numTotal + reqs.length := by
  induction reqs generalizing s with
  | nil => exact ⟨s, rfl, by simp⟩
  | cons i rest ih =>
    obtain ⟨d, hd, hp, hc, hstep⟩ := serve_step s i (hret i (List.mem_cons_self i rest))
    have htot : d.srv.numTotal = s.numTotal + 1 := by
      rcases hstep with h | h
      · exact h.2.1
      · exact absurd (hcmp i (List.mem_cons_self i rest)) h.1
    obtain ⟨s', hrun, hs'⟩ := ih d.srv
      (fun j hj => hcmp j (List.mem_cons_of_mem i hj))
      (fun j hj => backendsReturn_congr j s d.srv hp hc (hret j (List.mem_cons_of_mem i hj)))
    refine ⟨s', ?_, ?_⟩
    · simp [run, hd, hrun]
    · rw [hs', htot]
      simp only [List.length_cons]
      push_cast
      ring

/-- C3.  From the state at process start, after every sequence of requests
served by `handleRequest` and `showResult`, and after every stretch of it,
`numMatch + numDiff ≤ numTotal`, and the `numIgnore` that `showResult` prints,
`numTotal - numDiff - numMatch`, is not negative. -/
theorem run_invariant (primary candidate : String) (reqs : List Inbound)
    (hret : ∀ i ∈ reqs, i.backendsReturn (start primary candidate)) (n : Nat) :
    ∃ s', run (start primary candidate) (reqs.take n) = some s'
      ∧ s'.numMatch + s'.numDiff ≤ s'.numTotal
      ∧ 0 ≤ s'.numTotal - s'.numDiff - s'.numMatch := by
  obtain ⟨s', hrun, _, _, h3⟩ := run_inv_aux (reqs.take n) (start primary candidate)
    (fun i hi => hret i (List.mem_of_mem_take hi))
    (by simp [start]) (by simp [start]) (by simp [start])
  exact ⟨s', hrun, h3, by omega⟩

/-- C2 at a concrete input: the five requests of `demoTraffic`, from the state
at process start. -/
theorem run_numTotal_witness :
    ∃ s', run demoServer demoTraffic = some s'
      ∧ s'.numTotal = demoServer.numTotal + demoTraffic.length :=
  run_numTotal demoServer demoTraffic (by decide) (by decide)

/-- C3 at a concrete input: the first four requests of `demoMixed`. -/
theorem run_invariant_witness :
    ∃ s', run (start "http://primary:8080" "http://candidate:8080") (demoMixed.take 4) = some s'
      ∧ s'.numMatch + s'.numDiff ≤ s'.numTotal
      ∧ 0 ≤ s'.numTotal - s'.numDiff - s'.numMatch :=
  run_invariant "http://primary:8080" "http://candidate:8080" demoMixed (by decide) 4

/-- C1 at concrete inputs, one for each row of the table. -/
theorem handleRequest_counters_witness :
    (∃ d, handleRequest primaryDown demoServer ResponseWriter.fresh demoRequest = some d
        ∧ d.srv.numTotal = demoServer.numTotal + 1
        ∧ d.srv.numMatch = demoServer.numMatch ∧ d.srv.numDiff = demoServer.numDiff)
    ∧ (∃ d, handleRequest candidateDown demoServer ResponseWriter.fresh demoRequest = some d
        ∧ d.srv.numTotal = demoServer.numTotal + 1
        ∧ d.srv.numMatch = demoServer.numMatch ∧ d.srv.numDiff = demoServer.numDiff + 1)
    ∧ (∃ d, handleRequest bothAgree demoServer ResponseWriter.fresh demoRequest = some d
        ∧ d.srv.numTotal = demoServer.numTotal + 1
        ∧ d.srv.numMatch = demoServer.numMatch + 1 ∧ d.srv.numDiff = demoServer.numDiff)
    ∧ (∃ d, handleRequest bothDiffer demoServer ResponseWriter.fresh demoRequest = some d
        ∧ d.srv.numTotal = demoServer.numTotal + 1
        ∧ d.srv.numMatch = demoServer.numMatch ∧ d.srv.numDiff = demoServer.numDiff + 1) :=
  ⟨(handleRequest_counters primaryDown demoServer ResponseWriter.fresh demoRequest
      ⟨by decide, by decide⟩).1 none "status: 500" (some [123, 125]) none (by decide) (by decide),
   (handleRequest_counters candidateDown demoServer ResponseWriter.fresh demoRequest
      ⟨by decide, by decide⟩).2.1 (some [123, 125]) none "status: 500" (by decide) (by decide),
   (handleRequest_counters bothAgree demoServer ResponseWriter.fresh demoRequest
      ⟨by decide, by decide⟩).2.2.1 (some [123, 125]) (some [123, 125]) (by decide) (by decide)
      (by decide),
   (handleRequest_counters bothDiffer demoServer ResponseWriter.fresh demoRequest
      ⟨by decide, by decide⟩).2.2.2.1 (some [123, 125]) (some [91, 93]) (by decide) (by decide)
      (by decide)⟩

/-! ## Decimal text -/

theorem digitValue_digitChar (k : Nat) (hk : k < 10) :
    digitValue (Nat.digitChar k) = k ∧ (Nat.digitChar k).isDigit = true := by
  interval_cases k <;> exact ⟨by decide, by decide⟩

theorem decimalValue_append (pre : List Char) (d : Char) :
    decimalValue (pre ++ [d]) = 10 * decimalValue pre + digitValue d := by
  simp [decimalValue, List.foldl_append]

theorem toDigitsCore_decimal (fuel : Nat) :
    ∀ (n : Nat) (ds : List Char), n < fuel →
      ∃ pre, Nat.toDigitsCore 10 fuel n ds = pre ++ ds ∧ decimalValue pre = n
        ∧ ∀ c ∈ pre, c.isDigit = true := by
  induction fuel with
  | zero => intro n ds h; omega
  | succ fuel ih =>
    intro n ds h
    have hd := digitValue_digitChar (n % 10) (Nat.mod_lt n (by decide))
    by_cases h0 : n / 10 = 0
    · refine ⟨[Nat.digitChar (n % 10)], ?_, ?_, ?_⟩
      · simp [Nat.toDigitsCore, h0]
      · have : decimalValue [Nat.digitChar (n % 10)] = digitValue (Nat.digitChar (n % 10)) := by
          simp [decimalValue]
        rw [this, hd.1]
        omega
      · intro c hc
        simp only [List.mem_singleton] at hc
        rw [hc]
        exact hd.2
    · obtain ⟨pre, hpre, hval, hdig⟩ := ih (n / 10) (Nat.digitChar (n % 10) :: ds) (by omega)
      refine ⟨pre ++ [Nat.digitChar (n % 10)], ?_, ?_, ?_⟩
      · simp [Nat.toDigitsCore, h0, hpre]
      · rw [decimalValue_append, hval, hd.1]
        omega
      · intro c hc
        rcases List.mem_append.1 hc with h1 | h1
        · exact hdig c h1
        · simp only [List.mem_singleton] at h1
          rw [h1]
          exact hd.2

theorem toDigits_decimal (n : Nat) :
    decimalValue (Nat.toDigits 10 n) = n ∧ ∀ c ∈ Nat.toDigits 10 n, c.isDigit = true := by
  obtain ⟨pre, hpre, hval, hdig⟩ := toDigitsCore_decimal (n + 1) n [] (by omega)
  have h : Nat.toDigits 10 n = pre := by
    simp [Nat.toDigits, hpre]
  rw [h]
  exact ⟨hval, hdig⟩

theorem fmtD_decimal (i : Int) :
    (0 ≤ i → decimalValue (fmtD i) = i.natAbs ∧ ∀ c ∈ fmtD i, c.isDigit = true)
    ∧ (i < 0 → ∃ ds, fmtD i = '-' :: ds ∧ decimalValue ds = i.natAbs
        ∧ ∀ c ∈ ds, c.isDigit = true) := by
  constructor
  · intro h
    have hn : ¬ i < 0 := by omega
    simp only [fmtD, hn, if_false]
    exact toDigits_decimal i.natAbs
  · intro h
    refine ⟨Nat.toDigits 10 i.natAbs, ?_, toDigits_decimal i.natAbs⟩
    simp [fmtD, h]

/-! ## The report and the report path -/

/-- C6.  `showResult` appends to the response body exactly the four lines
`numTotal: `, `numDiff: `, `numMatch: `, `numIgnore: `, in that order, each
followed by the decimal text of its value and a newline, `numIgnore` being
`numTotal - numDiff - numMatch`; on a fresh writer the body is those four lines
and nothing else; the content type is set to plain text; the text does not
depend on the request or on anything but the three counters; and the text of a
value is its decimal notation: digits whose base-ten value is the magnitude,
after a minus sign when the value is negative. -/
theorem showResult_text (s : Server) (w : ResponseWriter) (r : Request) :
    (showResult s w r).body
        = w.body ++ ("numTotal: " ++ toString s.numTotal ++ "\n"
            ++ "numDiff: " ++ toString s.numDiff ++ "\n"
            ++ "numMatch: " ++ toString s.numMatch ++ "\n"
            ++ "numIgnore: " ++ toString (s.numTotal - s.numDiff - s.numMatch) ++ "\n")
    ∧ (showResult s ResponseWriter.fresh r).body
        = "numTotal: " ++ toString s.numTotal ++ "\n"
            ++ "numDiff: " ++ toString s.numDiff ++ "\n"
            ++ "numMatch: " ++ toString s.numMatch ++ "\n"
            ++ "numIgnore: " ++ toString (s.numTotal - s.numDiff - s.numMatch) ++ "\n"
    ∧ ("Content-Type", "text/plain") ∈ (showResult s w r).header
    ∧ (∀ (primary candidate : String) (r' : Request),
        (showResult { s with primary := primary, candidate := candidate } w r').body
          = (showResult s w r).body)
    ∧ (∀ v : Int,
        (0 ≤ v → decimalValue (toString v).toList = v.natAbs
          ∧ ∀ c ∈ (toString v).toList, c.isDigit = true)
        ∧ (v < 0 → ∃ ds, (toString v).toList = '-' :: ds ∧ decimalValue ds = v.natAbs
          ∧ ∀ c ∈ ds, c.isDigit = true)) := by
  have h : ∀ w : ResponseWriter, (showResult s w r).body
        = w.body ++ ("numTotal: " ++ toString s.numTotal ++ "\n"
            ++ "numDiff: " ++ toString s.numDiff ++ "\n"
            ++ "numMatch: " ++ toString s.numMatch ++ "\n"
            ++ "numIgnore: " ++ toString (s.numTotal - s.numDiff - s.numMatch) ++ "\n") := by
    intro w
    simp only [showResult, ResponseWriter.write, ResponseWriter.setHeader, sprintf_report,
      fmtD_eq_toString]
  refine ⟨h w, ?_, ?_, ?_, ?_⟩
  · rw [h]
    show "" ++ _ = _
    rw [String.empty_append]
  · simp [showResult, ResponseWriter.write, ResponseWriter.setHeader]
  · intro primary candidate r'
    rfl
  · intro v
    have hv : (toString v).toList = fmtD v := by
      rw [← fmtD_eq_toString]
      rfl
    rw [hv]
    exact fmtD_decimal v

/-- C6 at a concrete input: ten requests, seven matches, two diffs. -/
theorem showResult_text_witness :
    (showResult demoCounters ResponseWriter.fresh demoReport).body
      = "numTotal: 10\nnumDiff: 2\nnumMatch: 7\nnumIgnore: 1\n" :=
  (showResult_text demoCounters ResponseWriter.fresh demoReport).2.1.trans (by decide)

/-- C5.  A request to `handleRequest` whose `RequestURI` is `/` or empty, and
any request served by `showResult`, leaves the process-wide variables as they
were, sends nothing to a backend, and writes the report that `showResult`
produces for the unchanged counters. -/
theorem report_read_frame (world : World) (s : Server) (w : ResponseWriter) (r r' : Request)
    (h : r.RequestURI = "/" ∨ r.RequestURI = "") :
    (∃ d, handleRequest world s w r = some d ∧ d.srv = s ∧ d.sent = [] ∧ d.log = []
        ∧ d.w = showResult s w r
        ∧ d.w.body = w.body ++ ("numTotal: " ++ toString s.numTotal ++ "\n"
            ++ "numDiff: " ++ toString s.numDiff ++ "\n"
            ++ "numMatch: " ++ toString s.numMatch ++ "\n"
            ++ "numIgnore: " ++ toString (s.numTotal - s.numDiff - s.numMatch) ++ "\n"))
    ∧ (∃ d, serve s (Inbound.result r') = some d ∧ d.srv = s ∧ d.sent = [] ∧ d.log = []
        ∧ d.w = showResult s ResponseWriter.fresh r') := by
  refine ⟨⟨_, handleRequest_report world s w r h, rfl, rfl, rfl, rfl, ?_⟩, ⟨_, rfl, rfl, rfl, rfl, rfl⟩⟩
  simp only [showResult, ResponseWriter.write, ResponseWriter.setHeader, sprintf_report,
    fmtD_eq_toString]

/-- C5 at a concrete input: `GET /` after ten requests, with both backends down. -/
theorem report_read_frame_witness :
    ∃ d, handleRequest bothDown demoCounters ResponseWriter.fresh demoReport = some d
      ∧ d.srv = demoCounters ∧ d.sent = [] ∧ d.log = []
      ∧ d.w = showResult demoCounters ResponseWriter.fresh demoReport
      ∧ d.w.body = ResponseWriter.fresh.body ++ ("numTotal: " ++ toString demoCounters.numTotal ++ "\n"
            ++ "numDiff: " ++ toString demoCounters.numDiff ++ "\n"
            ++ "numMatch: " ++ toString demoCounters.numMatch ++ "\n"
            ++ "numIgnore: "
            ++ toString (demoCounters.numTotal - demoCounters.numDiff - demoCounters.numMatch)
            ++ "\n") :=
  (report_read_frame bothDown demoCounters ResponseWriter.fresh demoReport demoRequest
    (Or.inl (by decide))).1

/-! ## Where the code departs from the specification -/

/-- C4, the code at the failing inputs.  When a backend call fails,
`handleRequest` returns before it reaches `showResult`: the counters are
updated and the response body stays empty.  Only when both calls succeed is
the report written. -/
theorem handleRequest_failure_writes_nothing :
    (handleRequest primaryDown demoServer ResponseWriter.fresh demoRequest).map
        (fun d => (d.srv.numTotal, d.w)) = some (1, ResponseWriter.fresh)
    ∧ (handleRequest bothDown demoServer ResponseWriter.fresh demoRequest).map
        (fun d => (d.srv.numTotal, d.w)) = some (1, ResponseWriter.fresh)
    ∧ (handleRequest candidateDown demoServer ResponseWriter.fresh demoRequest).map
        (fun d => (d.srv.numTotal, d.srv.numDiff, d.w)) = some (1, 1, ResponseWriter.fresh)
    ∧ (handleRequest bothAgree demoServer ResponseWriter.fresh demoRequest).map
        (fun d => d.w.body) = some "numTotal: 1\nnumDiff: 0\nnumMatch: 1\nnumIgnore: 0\n" := by
  refine ⟨by decide, by decide, by decide, by decide⟩

/-- C8, the code at the failing inputs.  The primary fails with the reason
`status: 500`; the line logged for the request does not contain it, neither
when the candidate succeeds nor when it fails too.  The line logged when only
the candidate fails does contain the reason. -/
theorem handleRequest_primary_reason_not_logged :
    (dispatch primaryDown demoServer demoRequest).1.result
        = Result.returned none (some "status: 500")
    ∧ (handleRequest primaryDown demoServer ResponseWriter.fresh demoRequest).map (fun d => d.log)
        = some ["[result] [ignore] PRIMARY FAIL /api x=1\n"]
    ∧ occursIn "status: 500" "[result] [ignore] PRIMARY FAIL /api x=1\n" = false
    ∧ (dispatch bothDown demoServer demoRequest).1.result
        = Result.returned none (some "status: 500")
    ∧ (dispatch bothDown demoServer demoRequest).2.result
        = Result.returned none (some "status: 500")
    ∧ (handleRequest bothDown demoServer ResponseWriter.fresh demoRequest).map (fun d => d.log)
        = some ["[result] [ignore] ALL FAIL /api x=1\n"]
    ∧ occursIn "status: 500" "[result] [ignore] ALL FAIL /api x=1\n" = false
    ∧ (handleRequest candidateDown demoServer ResponseWriter.fresh demoRequest).map (fun d => d.log)
        = some ["[result] [diff] CANDIDATE FAIL status: 500 /api x=1\n"]
    ∧ occursIn "status: 500" "[result] [diff] CANDIDATE FAIL status: 500 /api x=1\n" = true := by
  refine ⟨by decide, by decide, by decide, by decide, by decide, by decide, by decide,
    by decide, by decide⟩

/-- C9, the code at the failing input.  The inbound body is the two bytes
`hi`.  Both calls of `doRequest` read the one stream `r.Body`: when the primary
goroutine reads first the candidate is sent an empty body, when the candidate
reads first the primary is, and when they alternate each is sent one byte. -/
theorem handleRequest_body_not_copied :
    demoPost.Body = [104, 105]
    ∧ (handleRequest bothAgree demoServer ResponseWriter.fresh demoPost).map
        (fun d => d.sent.map (fun req => (req.URL, req.Body)))
        = some [("http://primary:8080/api?x=1", [104, 105]), ("http://candidate:8080/api?x=1", [])]
    ∧ (handleRequest candidateFirst demoServer ResponseWriter.fresh demoPost).map
        (fun d => d.sent.map (fun req => (req.URL, req.Body)))
        = some [("http://primary:8080/api?x=1", []), ("http://candidate:8080/api?x=1", [104, 105])]
    ∧ (handleRequest alternating demoServer ResponseWriter.fresh demoPost).map
        (fun d => d.sent.map (fun req => (req.URL, req.Body)))
        = some [("http://primary:8080/api?x=1", [104]), ("http://candidate:8080/api?x=1", [105])] := by
  refine ⟨by decide, by decide, by decide, by decide⟩

/-! ## The shared body stream -/

theorem readBody_length (reads : List Bool) :
    ∀ body : Bytes, (readBody reads body).1.length + (readBody reads body).2.length = body.length := by
  induction reads with
  | nil =>
    intro body
    cases body <;> simp [readBody]
  | cons t reads ih =>
    intro body
    cases body with
    | nil => simp [readBody]
    | cons b bs =>
      have h := ih bs
      cases t <;> simp [readBody] <;> omega

theorem doRequest_body_split (world : World) (backend : String) (r : Request) (reads : List Bool) :
    (doRequest world backend r reads).rest.length ≤ r.Body.length
    ∧ ∀ req ∈ (doRequest world backend r reads).sent,
        req.Body.length + (doRequest world backend r reads).rest.length = r.Body.length := by
  have hl := readBody_length reads r.Body
  unfold doRequest
  cases world.urlParse backend with
  | none => simp
  | some u =>
    simp only
    cases world.newRequest r.Method _ with
    | some e => simp
    | none =>
      simp only
      cases world.clientDo _ with
      | error e =>
        simp only [List.mem_singleton]
        exact ⟨by omega, fun req h => by rw [h]; exact hl⟩
      | ok resp =>
        simp only [ioReadAll]
        split
        · simp only [List.mem_singleton]
          exact ⟨by omega, fun req h => by rw [h]; exact hl⟩
        · cases resp.Body.err with
          | none =>
            simp only [List.mem_singleton]
            exact ⟨by omega, fun req h => by rw [h]; exact hl⟩
          | some e =>
            simp only [List.mem_singleton]
            exact ⟨by omega, fun req h => by rw [h]; exact hl⟩

/-- The two outbound requests of one comparison request share the bytes of the
inbound body: whatever the scheduling of the two goroutines, together they carry
no more bytes than `r.Body` holds, so they never both carry a non-empty body whole. -/
theorem dispatch_body_shared (world : World) (s : Server) (r : Request) :
    ∀ reqA ∈ (dispatch world s r).1.sent, ∀ reqB ∈ (dispatch world s r).2.sent,
      reqA.Body.length + reqB.Body.length ≤ r.Body.length
      ∧ (reqA.Body = r.Body ∧ reqB.Body = r.Body → r.Body = []) := by
  intro reqA hA reqB hB
  have h1 := (doRequest_body_split world s.primary r world.readsA).2 reqA hA
  have h2 := (doRequest_body_split world s.candidate
    { r with Body := (doRequest world s.primary r world.readsA).rest } world.readsB).2 reqB hB
  have h3 : reqB.Body.length ≤ (doRequest world s.primary r world.readsA).rest.length := by
    simp only at h2
    omega
  have hle : reqA.Body.length + reqB.Body.length ≤ r.Body.length := by omega
  refine ⟨hle, ?_⟩
  rintro ⟨ha, hb⟩
  rw [ha, hb] at hle
  exact List.length_eq_zero.1 (by omega)

/-- At a concrete input: the two bytes `hi`, the primary goroutine reading first. -/
theorem dispatch_body_shared_witness :
    ([104, 105] : Bytes).length + ([] : Bytes).length ≤ demoPost.Body.length
    ∧ (([104, 105] : Bytes) = demoPost.Body ∧ ([] : Bytes) = demoPost.Body → demoPost.Body = []) :=
  dispatch_body_shared bothAgree demoServer demoPost
    { Method := "POST", URL := "http://primary:8080/api?x=1", Header := [], Body := [104, 105] }
    (by decide)
    { Method := "POST", URL := "http://candidate:8080/api?x=1", Header := [], Body := [] }
    (by decide)

/-! ## Further properties of the handlers -/

/-- The request `doRequest` hands to `client.Do` has the inbound method and
headers, and as target the scheme and host of the backend address followed by
the inbound `RequestURI`. -/
theorem doRequest_forwards (world : World) (backend : String) (r : Request) (reads : List Bool)
    (u : URL) (hu : world.urlParse backend = some u) :
    ∀ req ∈ (doRequest world backend r reads).sent,
      req.Method = r.Method ∧ req.Header = r.Header
      ∧ req.URL = u.Scheme ++ "://" ++ u.Host ++ r.RequestURI := by
  unfold doRequest
  simp only [hu, sprintf_target, ioReadAll]
  cases world.newRequest r.Method (u.Scheme ++ "://" ++ u.Host ++ r.RequestURI) with
  | some e => simp
  | none =>
    simp only
    cases world.clientDo _ with
    | error e => simp
    | ok resp =>
      simp only
      split
      · simp
      · cases resp.Body.err <;> simp

/-- At a concrete input: the example `POST` sent to the primary. -/
theorem doRequest_forwards_witness :
    ("POST" : String) = demoPost.Method ∧ ([] : List (String × String)) = demoPost.Header
    ∧ ("http://primary:8080/api?x=1" : String) = "http" ++ "://" ++ "primary:8080" ++ demoPost.RequestURI :=
  doRequest_forwards bothAgree "http://primary:8080" demoPost [true, true]
    { Scheme := "http", Host := "primary:8080", Path := "", RawQuery := "" } (by decide)
    { Method := "POST", URL := "http://primary:8080/api?x=1", Header := [], Body := [104, 105] }
    (by decide)

/-- A comparison request ends the process exactly when one of its two calls of
`doRequest` panics, which is exactly when `url.Parse` rejects one of the two
configured addresses. -/
theorem handleRequest_crash_iff (world : World) (s : Server) (w : ResponseWriter) (r : Request)
    (hcmp : r.RequestURI ≠ "/" ∧ r.RequestURI ≠ "") :
    (handleRequest world s w r = none ↔
      (world.urlParse s.primary = none ∨ world.urlParse s.candidate = none)) := by
  have hc : ¬ (r.RequestURI = "/" ∨ r.RequestURI = "") := by
    rintro (h | h)
    · exact hcmp.1 h
    · exact hcmp.2 h
  have hA : (dispatch world s r).1.result = Result.panicked ↔ world.urlParse s.primary = none :=
    doRequest_panicked_iff world s.primary r world.readsA
  have hB : (dispatch world s r).2.result = Result.panicked ↔ world.urlParse s.candidate = none :=
    doRequest_panicked_iff world s.candidate _ world.readsB
  constructor
  · intro hnone
    by_contra hne
    have h1 : (dispatch world s r).1.result ≠ Result.panicked := fun h => hne (Or.inl (hA.1 h))
    have h2 : (dispatch world s r).2.result ≠ Result.panicked := fun h => hne (Or.inr (hB.1 h))
    obtain ⟨d, hd, _⟩ := handleRequest_step world s w r hc h1 h2
    rw [hnone] at hd
    cases hd
  · rintro (h | h)
    · exact handleRequest_panicA world s w r hc (hA.2 h)
    · exact handleRequest_panicB world s w r hc (hB.2 h)

/-- At a concrete input: a primary address without a scheme. -/
theorem handleRequest_crash_iff_witness :
    handleRequest bothAgree (start ":80" "http://candidate:8080") ResponseWriter.fresh demoRequest
      = none :=
  (handleRequest_crash_iff bothAgree (start ":80" "http://candidate:8080") ResponseWriter.fresh
    demoRequest ⟨by decide, by decide⟩).2 (Or.inl (by decide))

/-- When both backend calls succeed, the response of a comparison request is the
report that `showResult` writes for the counters as they are after the request
was counted; when a backend call fails, nothing is written to the response. -/
theorem handleRequest_response (world : World) (s : Server) (w : ResponseWriter) (r : Request)
    (hcmp : r.RequestURI ≠ "/" ∧ r.RequestURI ≠ "") :
    (∀ respA respB,
        (dispatch world s r).1.result = Result.returned respA none →
        (dispatch world s r).2.result = Result.returned respB none →
        ∃ d, handleRequest world s w r = some d ∧ d.w = showResult d.srv w r)
    ∧ (∀ respA errA respB errB,
        (dispatch world s r).1.result = Result.returned respA errA →
        (dispatch world s r).2.result = Result.returned respB errB →
        errA ≠ none ∨ errB ≠ none →
        ∃ d, handleRequest world s w r = some d ∧ d.w = w) := by
  have hc : ¬ (r.RequestURI = "/" ∨ r.RequestURI = "") := by
    rintro (h | h)
    · exact hcmp.1 h
    · exact hcmp.2 h
  constructor
  · intro respA respB hA hB
    by_cases hm : (world.compare (respA.getD []) (respB.getD []) options).1 = Difference.FullMatch
    · exact ⟨_, handleRequest_match world s w r hc respA respB hA hB hm, rfl⟩
    · exact ⟨_, handleRequest_mismatch world s w r hc respA respB hA hB hm, rfl⟩
  · intro respA errA respB errB hA hB hfail
    cases errA with
    | some eA =>
      cases errB with
      | some eB => exact ⟨_, handleRequest_allFail world s w r hc respA respB eA eB hA hB, rfl⟩
      | none => exact ⟨_, handleRequest_primaryFail world s w r hc respA respB eA hA hB, rfl⟩
    | none =>
      cases errB with
      | some eB => exact ⟨_, handleRequest_candidateFail world s w r hc respA respB eB hA hB, rfl⟩
      | none =>
        rcases hfail with h | h
        · exact absurd rfl h
        · exact absurd rfl h

/-- At concrete inputs: both backends agreeing, and the candidate down. -/
theorem handleRequest_response_witness :
    (∃ d, handleRequest bothAgree demoServer ResponseWriter.fresh demoRequest = some d
        ∧ d.w = showResult d.srv ResponseWriter.fresh demoRequest)
    ∧ (∃ d, handleRequest candidateDown demoServer ResponseWriter.fresh demoRequest = some d
        ∧ d.w = ResponseWriter.fresh) :=
  ⟨(handleRequest_response bothAgree demoServer ResponseWriter.fresh demoRequest
      ⟨by decide, by decide⟩).1 (some [123, 125]) (some [123, 125]) (by decide) (by decide),
   (handleRequest_response candidateDown demoServer ResponseWriter.fresh demoRequest
      ⟨by decide, by decide⟩).2 (some [123, 125]) none none (some "status: 500")
      (by decide) (by decide) (Or.inr (by decide))⟩

theorem sprintln_five (a b c d e : String) :
    sprintln [a, b, c, d, e] = a ++ " " ++ b ++ " " ++ c ++ " " ++ d ++ " " ++ e ++ "\n" := by
  apply String.ext
  simp [sprintln, String.intercalate, String.intercalate.go]

theorem sprintln_six (a b c d e f : String) :
    sprintln [a, b, c, d, e, f]
      = a ++ " " ++ b ++ " " ++ c ++ " " ++ d ++ " " ++ e ++ " " ++ f ++ "\n" := by
  apply String.ext
  simp [sprintln, String.intercalate, String.intercalate.go]

/-- The line logged for a comparison request in which a backend call fails.
When the primary fails the line holds the tags, the path and the query only,
whatever the two errors are; when only the candidate fails the line holds the
candidate's error text as well. -/
theorem handleRequest_failure_log (world : World) (s : Server) (w : ResponseWriter) (r : Request)
    (hcmp : r.RequestURI ≠ "/" ∧ r.RequestURI ≠ "") :
    (∀ respA eA respB eB,
        (dispatch world s r).1.result = Result.returned respA (some eA) →
        (dispatch world s r).2.result = Result.returned respB (some eB) →
        ∃ d, handleRequest world s w r = some d
          ∧ d.log = ["[result] [ignore] ALL FAIL " ++ r.URL.Path ++ " " ++ r.URL.RawQuery ++ "\n"])
    ∧ (∀ respA eA respB,
        (dispatch world s r).1.result = Result.returned respA (some eA) →
        (dispatch world s r).2.result = Result.returned respB none →
        ∃ d, handleRequest world s w r = some d
          ∧ d.log = ["[result] [ignore] PRIMARY FAIL " ++ r.URL.Path ++ " " ++ r.URL.RawQuery ++ "\n"])
    ∧ (∀ respA respB eB,
        (dispatch world s r).1.result = Result.returned respA none →
        (dispatch world s r).2.result = Result.returned respB (some eB) →
        ∃ d, handleRequest world s w r = some d
          ∧ d.log = ["[result] [diff] CANDIDATE FAIL " ++ eB ++ " " ++ r.URL.Path ++ " "
              ++ r.URL.RawQuery ++ "\n"]) := by
  have hc : ¬ (r.RequestURI = "/" ∨ r.RequestURI = "") := by
    rintro (h | h)
    · exact hcmp.1 h
    · exact hcmp.2 h
  refine ⟨?_, ?_, ?_⟩
  · intro respA eA respB eB hA hB
    refine ⟨_, handleRequest_allFail world s w r hc respA respB eA eB hA hB, ?_⟩
    simp only [sprintln_five]
    congr 1
  · intro respA eA respB hA hB
    refine ⟨_, handleRequest_primaryFail world s w r hc respA respB eA hA hB, ?_⟩
    simp only [sprintln_five]
    congr 1
  · intro respA respB eB hA hB
    refine ⟨_, handleRequest_candidateFail world s w r hc respA respB eB hA hB, ?_⟩
    simp only [sprintln_six]
    congr 1

/-- At concrete inputs: the primary down, and the candidate down. -/
theorem handleRequest_failure_log_witness :
    (∃ d, handleRequest primaryDown demoServer ResponseWriter.fresh demoRequest = some d
        ∧ d.log = ["[result] [ignore] PRIMARY FAIL " ++ demoRequest.URL.Path ++ " "
            ++ demoRequest.URL.RawQuery ++ "\n"])
    ∧ (∃ d, handleRequest candidateDown demoServer ResponseWriter.fresh demoRequest = some d
        ∧ d.log = ["[result] [diff] CANDIDATE FAIL " ++ "status: 500" ++ " "
            ++ demoRequest.URL.Path ++ " " ++ demoRequest.URL.RawQuery ++ "\n"]) :=
  ⟨(handleRequest_failure_log primaryDown demoServer ResponseWriter.fresh demoRequest
      ⟨by decide, by decide⟩).2.1 none "status: 500" (some [123, 125]) (by decide) (by decide),
   (handleRequest_failure_log candidateDown demoServer ResponseWriter.fresh demoRequest
      ⟨by decide, by decide⟩).2.2 (some [123, 125]) none "status: 500" (by decide) (by decide)⟩

end Diffy
